import Mathlib

/-!
Shallow embedding of the BUAA course-selector web client
(Vue 3 components `LogMonitor`/`SelectCourse`/`CourseSearch`/`MainPanel`/`LoginPanel`,
the WebSocket utility module, the shared axios API module, and the legacy inline
`CourseSystemUI` client kept in `README.md`), together with spec-modelled
definitions of the backend components (Session Registry, Retry Orchestrator,
Capability Token Extractor) that are not part of the frontend sources.

Pure functions of the JavaScript source are translated into Lean functions;
stateful handlers are translated into explicit state-passing functions on
small state records.
-/

/- ========================================================================
   Log monitor (`LogMonitor` component: `addLog`, `clearLogs`, `logIcons`,
   `logIdCounter`).  The component keeps a reactive array `logs`, a counter
   `logIdCounter` starting at 0, and on every `addLog(message, level)`:
     id := ++logIdCounter;  logs.push(entry);
     if (logs.length > 500) logs.splice(0, logs.length - 500)
   ======================================================================== -/

/-- One entry of the `logs` array of the log monitor.  The wall-clock `time`
string is supplied by the environment and threaded as a parameter. -/
structure LogEntry where
  id : Nat
  time : String
  message : String
  level : String
  icon : String
  deriving Repr, DecidableEq

/-- Mutable state of the log monitor: the `logIdCounter` counter and the
`logs` array. -/
structure LogState where
  logIdCounter : Nat
  logs : List LogEntry
  deriving Repr, DecidableEq

/-- Initial state of the log monitor: `logIdCounter = 0`, empty `logs`. -/
def initLogState : LogState := { logIdCounter := 0, logs := [] }

/-- The `logIcons` level-to-icon lookup of the component, defaulting to the
info icon. -/
def logIcons (level : String) : String :=
  if level = "info" then "ℹ️"
  else if level = "success" then "✅"
  else if level = "error" then "❌"
  else if level = "warning" then "⚠️"
  else "ℹ️"

/-- The entry built by one `addLog` call: `id: ++logIdCounter`, plus time,
message, level and icon. -/
def mkLogEntry (st : LogState) (time message level : String) : LogEntry :=
  { id := st.logIdCounter + 1
    time := time
    message := message
    level := level
    icon := logIcons level }

/-- The `addLog(message, level)` handler of the `LogMonitor` component: pre-increment the
id counter, push the new entry, then `if (logs.length > 500)
logs.splice(0, logs.length - 500)`. -/
def addLog (st : LogState) (time message level : String) : LogState :=
  let pushed := st.logs ++ [mkLogEntry st time message level]
  let trimmed := if pushed.length > 500 then pushed.drop (pushed.length - 500) else pushed
  { logIdCounter := st.logIdCounter + 1, logs := trimmed }

/-- The `clearLogs()` handler: empty the array, then log the confirmation line.  The id
counter is not reset. -/
def clearLogs (st : LogState) (time : String) : LogState :=
  addLog { st with logs := [] } time "🗑️ 日志已清空" "info"

/-- The sequence of ids that successive `addLog` calls assign, starting from
state `st`, for the given list of `(time, message, level)` arguments. -/
def idTrace (st : LogState) : List (String × String × String) → List Nat
  | [] => []
  | m :: rest => (st.logIdCounter + 1) :: idTrace (addLog st m.1 m.2.1 m.2.2) rest

lemma addLog_logIdCounter (st : LogState) (t m l : String) :
    (addLog st t m l).logIdCounter = st.logIdCounter + 1 := rfl

lemma idTrace_eq_range' (st : LogState) (ms : List (String × String × String)) :
    idTrace st ms = List.range' (st.logIdCounter + 1) ms.length := by
  induction ms generalizing st with
  | nil => rfl
  | cons m rest ih =>
      simp [idTrace, List.range'_succ, ih, addLog_logIdCounter]

lemma addLog_logs_eq_drop (st : LogState) (t m l : String) :
    (addLog st t m l).logs =
      (st.logs ++ [mkLogEntry st t m l]).drop ((st.logs.length + 1) - 500) := by
  unfold addLog
  by_cases h : st.logs.length + 1 > 500
  · simp [h]
  · have h0 : st.logs.length + 1 - 500 = 0 := by omega
    simp [h, h0]

lemma mem_range'_bounds {m s n : Nat} (h : m ∈ List.range' s n) : s ≤ m ∧ m < s + n := by
  have := List.mem_range'_1.mp h
  omega

lemma pairwise_lt_range' (s n : Nat) : (List.range' s n).Pairwise (· < ·) := by
  induction n generalizing s with
  | zero => simp
  | succ n ih =>
      rw [List.range'_succ]
      refine List.Pairwise.cons ?_ (ih (s + 1))
      intro b hb
      have := mem_range'_bounds hb
      omega

/-- C4: sequence numbers assigned by the log monitor (id via `++logIdCounter`)
are strictly increasing and never repeat or regress: from any state the ids
assigned by successive `addLog` calls form the contiguous strictly increasing
run starting right after the current counter value, and an observer connected
throughout `n` publishes from the initial state sees exactly `1..n` in order
with no gaps. -/
theorem C4_log_ids_strictly_increasing (st : LogState)
    (ms : List (String × String × String)) :
    idTrace st ms = List.range' (st.logIdCounter + 1) ms.length ∧
    (idTrace st ms).Pairwise (· < ·) ∧
    idTrace initLogState ms = List.range' 1 ms.length := by
  refine ⟨idTrace_eq_range' st ms, ?_, idTrace_eq_range' initLogState ms⟩
  rw [idTrace_eq_range']
  exact pairwise_lt_range' _ _

/-- C5: the per-session log buffer is bounded at 500 entries with drop-oldest
eviction: after every `addLog` the retained list has length at most 500, it is
exactly the suffix of the appended history past the eviction point (the most
recent entries, in order), and what was evicted is exactly the oldest prefix. -/
theorem C5_log_buffer_bounded (st : LogState) (t m l : String) :
    (addLog st t m l).logs.length ≤ 500 ∧
    (addLog st t m l).logs =
      (st.logs ++ [mkLogEntry st t m l]).drop ((st.logs.length + 1) - 500) ∧
    (st.logs ++ [mkLogEntry st t m l]).take ((st.logs.length + 1) - 500)
        ++ (addLog st t m l).logs = st.logs ++ [mkLogEntry st t m l] := by
  have hd := addLog_logs_eq_drop st t m l
  refine ⟨?_, hd, ?_⟩
  · rw [hd, List.length_drop]
    simp only [List.length_append, List.length_singleton]
    omega
  · rw [hd, List.take_append_drop]

/- ========================================================================
   Select operation guard (`CourseSystemUI.selectCourse` in the legacy inline
   client of README.md) and the spec-modelled single-flight rule of the
   backend Session Registry / Retry Orchestrator.
   ======================================================================== -/

/-- Outcome of one `CourseSystemUI.selectCourse(autoMode)` invocation with
respect to the `/api/select` request: the early returns issue no request. -/
inductive SelectStep where
  | notLoggedIn
  | operationInFlight
  | userCancelled
  | issueRequest (auto_retry : Bool)
  deriving Repr, DecidableEq

/-- State of the inline client relevant to `selectCourse`: `this.sessionId`
(null until login succeeds) and the `this.isOperating` flag. -/
structure UIState where
  sessionId : Option String
  isOperating : Bool
  deriving Repr, DecidableEq

/-- The `CourseSystemUI.selectCourse(autoMode)` method: return without a request when no
session exists; return without a request when `isOperating` is true; in auto
mode return when the confirm dialog is declined; otherwise POST
`/api/select {session_id, auto_retry}`. -/
def selectCourse (st : UIState) (autoMode confirmed : Bool) : SelectStep :=
  match st.sessionId with
  | none => SelectStep.notLoggedIn
  | some _ =>
      if st.isOperating then SelectStep.operationInFlight
      else if autoMode && !confirmed then SelectStep.userCancelled
      else SelectStep.issueRequest autoMode

/-- Whether a `selectCourse` invocation reached the `/api/select` request. -/
def issuesRequest : SelectStep → Bool
  | SelectStep.issueRequest _ => true
  | _ => false

/-- Task status, data model of spec §3. -/
inductive TaskStatus where
  | idle
  | running
  | stopRequested
  | stopped
  | completed
  | failed
  deriving Repr, DecidableEq

/-- Modelled from the spec: the backend Session Registry is not among the
frontend sources; §3 defines the single-flight condition as owning a Task with
status ∈ \x7bRunning, StopRequested\x7d. -/
def singleFlightBusy : Option TaskStatus → Bool
  | some TaskStatus.running => true
  | some TaskStatus.stopRequested => true
  | _ => false

/-- The Task slot of a session (at most one Task reference, spec §3). -/
structure SessionTask where
  task : Option TaskStatus
  deriving Repr, DecidableEq

/-- Result of a `startAuto` request (spec §4.3). -/
inductive StartResult where
  | accepted
  | alreadyRunning
  deriving Repr, DecidableEq

/-- Modelled from the spec: `startAuto(session, action)` of the backend Retry
Orchestrator (§4.3) rejects with `AlreadyRunning` if the session already owns
a Task with status ∈ \x7bRunning, StopRequested\x7d, otherwise creates
`Task\x7bRunning\x7d`. -/
def startAuto (s : SessionTask) : StartResult × SessionTask :=
  if singleFlightBusy s.task then (StartResult.alreadyRunning, s)
  else (StartResult.accepted, { task := some TaskStatus.running })

/-- Modelled from the spec: Task state transitions are linearized by the
per-session lock (§5), so a set of `n` concurrent `startAuto` calls is
processed as `n` successive calls against the evolving session state. -/
def startAutoN (s : SessionTask) : Nat → List StartResult
  | 0 => []
  | n + 1 =>
      let r := startAuto s
      r.1 :: startAutoN r.2 n

/-- Number of `accepted` results among a batch of `startAuto` outcomes. -/
def countAccepted : List StartResult → Nat
  | [] => 0
  | StartResult.accepted :: rs => countAccepted rs + 1
  | StartResult.alreadyRunning :: rs => countAccepted rs

lemma countAccepted_startAutoN_busy (s : SessionTask)
    (h : singleFlightBusy s.task = true) :
    ∀ n, countAccepted (startAutoN s n) = 0 := by
  intro n
  induction n with
  | zero => rfl
  | succ n ih => simp [startAutoN, startAuto, h, countAccepted, ih]

lemma countAccepted_startAutoN_free (s : SessionTask)
    (h : singleFlightBusy s.task = false) (n : Nat) (hn : 1 ≤ n) :
    countAccepted (startAutoN s n) = 1 := by
  obtain ⟨m, rfl⟩ : ∃ m, n = m + 1 := ⟨n - 1, by omega⟩
  have hbusy : singleFlightBusy (some TaskStatus.running) = true := rfl
  simp [startAutoN, startAuto, h, countAccepted,
    countAccepted_startAutoN_busy { task := some TaskStatus.running } hbusy m]

/-- C1: at most one auto-select task is in flight per session.  The frontend
guard: whenever `isOperating` is true, `selectCourse` returns without issuing
a request.  The backend rule (modelled from the spec): `startAuto` on a
session already owning a Running/StopRequested Task is rejected with
`AlreadyRunning`, and of `n ≥ 1` concurrent `startAuto` calls on a free
session exactly one is accepted. -/
theorem C1_single_flight (st : UIState) (autoMode confirmed : Bool)
    (b s : SessionTask) (n : Nat)
    (hop : st.isOperating = true)
    (hbusy : singleFlightBusy b.task = true)
    (hfree : singleFlightBusy s.task = false)
    (hn : 1 ≤ n) :
    issuesRequest (selectCourse st autoMode confirmed) = false ∧
    (startAuto b).1 = StartResult.alreadyRunning ∧
    countAccepted (startAutoN s n) = 1 := by
  refine ⟨?_, ?_, countAccepted_startAutoN_free s hfree n hn⟩
  · cases hsid : st.sessionId with
    | none => simp [selectCourse, hsid, issuesRequest]
    | some v => simp [selectCourse, hsid, hop, issuesRequest]
  · simp [startAuto, hbusy]

/-- Closed instance of `C1_single_flight`: an operating UI state issues no
request, a running session rejects a second start, and three concurrent
`startAuto` calls on a fresh session yield exactly one acceptance. -/
theorem C1_single_flight_witness :
    issuesRequest (selectCourse { sessionId := some "sid", isOperating := true } true true)
        = false ∧
    (startAuto { task := some TaskStatus.running }).1 = StartResult.alreadyRunning ∧
    countAccepted (startAutoN { task := none } 3) = 1 :=
  C1_single_flight { sessionId := some "sid", isOperating := true } true true
    { task := some TaskStatus.running } { task := none } 3
    rfl rfl rfl (by decide)

/- ========================================================================
   Cooperative stop: `handleSpecialMessages` of the WebSocket utility,
   `handleWebSocketMessage` of the `SelectCourse` component, and the spec-modelled
   auto-retry loop of the backend Retry Orchestrator.
   ======================================================================== -/

/-- User-visible notice produced by `handleSpecialMessages` in the WebSocket
utility module. -/
inductive ClientNotice where
  | successStopped
  | infoCompleted
  | warningStopRequested
  | silent
  deriving Repr, DecidableEq

/-- A parsed WebSocket push message: its `type` field and the `data.type`
field (`none` when `message.data` is absent). -/
structure WsMessage where
  type : String
  dataType : Option String
  deriving Repr, DecidableEq

/-- The `handleSpecialMessages(message)` handler of the WebSocket utility: only
`status_update` messages with a `data` object are examined; the switch maps
`auto_select_stopped` to a success toast, `task_completed` to an info toast,
and `stop_auto_select_requested` to the waiting-for-completion warning. -/
def handleSpecialMessages (m : WsMessage) : ClientNotice :=
  if m.type = "status_update" then
    match m.dataType with
    | some "auto_select_stopped" => ClientNotice.successStopped
    | some "task_completed" => ClientNotice.infoCompleted
    | some "stop_auto_select_requested" => ClientNotice.warningStopRequested
    | _ => ClientNotice.silent
  else ClientNotice.silent

/-- The `handleWebSocketMessage(message)` handler of the `SelectCourse` component: the new
value of `isAutoMode` — cleared only on `auto_select_stopped` or
`task_completed`. -/
def selectCourseWsMessage (isAutoMode : Bool) (m : WsMessage) : Bool :=
  match m.dataType with
  | some "auto_select_stopped" => false
  | some "task_completed" => false
  | _ => isAutoMode

/-- Classification of one attempt of the auto-retry action (spec §4.3). -/
inductive AttemptResult where
  | success
  | retryable
  | fatal
  deriving Repr, DecidableEq

/-- Modelled from the spec: visibility of the StopRequested flag at the safe
checkpoint before attempt `i`.  A `stop` arriving while attempt `j` is in
flight (`stopAt = some j`) is visible to the checkpoints of all attempts after
`j`, never to attempt `j` itself (§4.3: the loop checks the flag only at the
safe checkpoint before starting a new attempt). -/
def stopSeenBefore (stopAt : Option Nat) (i : Nat) : Bool :=
  match stopAt with
  | none => false
  | some j => decide (j < i)

/-- Modelled from the spec: the auto-retry loop of the backend Retry Orchestrator
(§4.3) is not among the frontend sources.  Attempts are numbered from `i`; at
each iteration the loop first checks StopRequested at the safe checkpoint,
then runs the action to completion (the action, once submitted, is
non-interruptible).  Returns the indices of the attempts that were executed
and the final Task status; `fuel` bounds the recursion. -/
def runAuto (action : Nat → AttemptResult) (stopAt : Option Nat) :
    Nat → Nat → List Nat × TaskStatus
  | 0, _ => ([], TaskStatus.running)
  | fuel + 1, i =>
      if stopSeenBefore stopAt i then ([], TaskStatus.stopped)
      else
        match action i with
        | AttemptResult.success => ([i], TaskStatus.completed)
        | AttemptResult.fatal => ([i], TaskStatus.failed)
        | AttemptResult.retryable =>
            let rest := runAuto action stopAt fuel (i + 1)
            (i :: rest.1, rest.2)

lemma runAuto_stopped_of_lt (action : Nat → AttemptResult) (s i fuel : Nat)
    (h : s < i) (hf : 1 ≤ fuel) :
    runAuto action (some s) fuel i = ([], TaskStatus.stopped) := by
  obtain ⟨g, rfl⟩ : ∃ g, fuel = g + 1 := ⟨fuel - 1, by omega⟩
  have hsee : stopSeenBefore (some s) i = true := by
    simp [stopSeenBefore]
    omega
  simp [runAuto, hsee]

lemma runAuto_stop_trace (action : Nat → AttemptResult) (s : Nat)
    (hact : ∀ j ≤ s, action j = AttemptResult.retryable) :
    ∀ fuel i, i ≤ s → s + 2 - i ≤ fuel →
      runAuto action (some s) fuel i =
        (List.range' i (s + 1 - i), TaskStatus.stopped) := by
  intro fuel
  induction fuel with
  | zero =>
      intro i h1 h2
      omega
  | succ fuel ih =>
      intro i h1 h2
      have hsee : stopSeenBefore (some s) i = false := by
        simp [stopSeenBefore]
        omega
      have hrest : runAuto action (some s) fuel (i + 1) =
          (List.range' (i + 1) (s + 1 - (i + 1)), TaskStatus.stopped) := by
        by_cases hi : i < s
        · exact ih (i + 1) (by omega) (by omega)
        · have hie : i = s := by omega
          have h0 : s + 1 - (i + 1) = 0 := by omega
          rw [h0, List.range'_zero]
          exact runAuto_stopped_of_lt action s (i + 1) fuel (by omega) (by omega)
      have hr : s + 1 - i = (s - i) + 1 := by omega
      have hr2 : s + 1 - (i + 1) = s - i := by omega
      simp [runAuto, hsee, hact i h1, hrest, hr, hr2, List.range'_succ]

/-- C2: calling `stop` on a Running task never aborts the attempt already in
flight.  In the spec-modelled retry loop, a stop signal arriving during
attempt `s` (all attempts so far retryable) lets attempt `s` run to
completion, suppresses exactly the following attempt, and ends the Task
Stopped; the client surfaces `stop_auto_select_requested` as the
waiting-for-completion warning (keeping `isAutoMode` set) and treats the task
as stopped only on the later `auto_select_stopped` message. -/
theorem C2_stop_never_aborts_inflight (action : Nat → AttemptResult)
    (s fuel : Nat)
    (hact : ∀ j ≤ s, action j = AttemptResult.retryable)
    (hf : s + 2 ≤ fuel) :
    (runAuto action (some s) fuel 0).1 = List.range (s + 1) ∧
    s ∈ (runAuto action (some s) fuel 0).1 ∧
    s + 1 ∉ (runAuto action (some s) fuel 0).1 ∧
    (runAuto action (some s) fuel 0).2 = TaskStatus.stopped ∧
    handleSpecialMessages
        { type := "status_update", dataType := some "stop_auto_select_requested" }
      = ClientNotice.warningStopRequested ∧
    selectCourseWsMessage true
        { type := "status_update", dataType := some "stop_auto_select_requested" }
      = true ∧
    handleSpecialMessages
        { type := "status_update", dataType := some "auto_select_stopped" }
      = ClientNotice.successStopped ∧
    selectCourseWsMessage true
        { type := "status_update", dataType := some "auto_select_stopped" }
      = false := by
  have h := runAuto_stop_trace action s hact fuel 0 (by omega) (by omega)
  rw [h]
  refine ⟨?_, ?_, ?_, rfl, rfl, rfl, rfl, rfl⟩
  · simp [List.range_eq_range']
  · simp [List.mem_range'_1]
  · simp [List.mem_range'_1]

/-- Closed instance of `C2_stop_never_aborts_inflight` at `s = 1`, a constant
retryable action and fuel 3: attempts 0 and 1 both complete, attempt 2 is
suppressed, and the client messages behave as stated. -/
theorem C2_stop_witness :
    (runAuto (fun _ => AttemptResult.retryable) (some 1) 3 0).1 = List.range 2 ∧
    1 ∈ (runAuto (fun _ => AttemptResult.retryable) (some 1) 3 0).1 ∧
    2 ∉ (runAuto (fun _ => AttemptResult.retryable) (some 1) 3 0).1 ∧
    (runAuto (fun _ => AttemptResult.retryable) (some 1) 3 0).2 = TaskStatus.stopped ∧
    handleSpecialMessages
        { type := "status_update", dataType := some "stop_auto_select_requested" }
      = ClientNotice.warningStopRequested ∧
    selectCourseWsMessage true
        { type := "status_update", dataType := some "stop_auto_select_requested" }
      = true ∧
    handleSpecialMessages
        { type := "status_update", dataType := some "auto_select_stopped" }
      = ClientNotice.successStopped ∧
    selectCourseWsMessage true
        { type := "status_update", dataType := some "auto_select_stopped" }
      = false :=
  C2_stop_never_aborts_inflight (fun _ => AttemptResult.retryable) 1 3
    (fun _ _ => rfl) (by decide)

/- ========================================================================
   Capability token (secretVal): spec-modelled extractor chain of the backend
   and the `hasSecretVal` computed property of the `CourseSearch` component.
   ======================================================================== -/

/-- Modelled from the spec: the capability-token validity predicate.  The
extractor is backend code not among the frontend sources; spec §3 fixes the
predicate as a minimum-length shape check and the repository wiki page on the
secretVal strategies states that only values longer than 50 characters are
accepted (只接受长度超过50字符的有效secretVal). -/
def secretValValid (v : String) : Bool := decide (50 < v.length)

/-- Result of one extraction strategy: `none` models an absent result or a
raised exception, both absorbed by the chain. -/
abbrev StrategyResult := Option String

/-- Extraction failure report of spec §4.1. -/
structure ExtractionError where
  exhausted : Bool
  perStrategyCauses : List String
  deriving Repr, DecidableEq

/-- Record one more per-strategy cause on a failing extraction outcome. -/
def withCause (c : String) : Except ExtractionError String → Except ExtractionError String
  | Except.ok v => Except.ok v
  | Except.error e =>
      Except.error { e with perStrategyCauses := c :: e.perStrategyCauses }

/-- Modelled from the spec: `extract` (§4.1) consumes the strategy results in
fixed priority order, validates each against the shape predicate, stops at the
first valid value, records the specific cause and continues otherwise, and
when every strategy fails returns `ExtractionError` with `exhausted` set. -/
def extract : List StrategyResult → Except ExtractionError String
  | [] => Except.error { exhausted := true, perStrategyCauses := [] }
  | r :: rest =>
      match r with
      | some v =>
          if secretValValid v then Except.ok v
          else withCause "invalid" (extract rest)
      | none => withCause "absent" (extract rest)

/-- Modelled from the spec: only an accepted extraction result is written to
the token slot of the session; a failed extraction leaves the stored token
unchanged (invalid results are discarded, never cached). -/
def storeToken (cur : Option String) (r : Except ExtractionError String) : Option String :=
  match r with
  | Except.ok v => some v
  | Except.error _ => cur

/-- A token slot is sound when it is absent or holds a valid value. -/
def validStore : Option String → Bool
  | none => true
  | some v => secretValValid v

/-- Search response data as consumed by the frontend components; `secret_val`
is `none` when the field is null/undefined. -/
structure SearchData where
  has_results : Bool
  coursesCount : Nat
  secret_val : Option String
  deriving Repr, DecidableEq

/-- The `hasSecretVal` computed property of the `CourseSearch` component:
`searchResult.value && searchResult.value.secret_val &&
searchResult.value.secret_val.length > 0` (absent and empty strings are
falsy). -/
def hasSecretVal (searchResult : Option SearchData) : Bool :=
  match searchResult with
  | none => false
  | some d =>
      match d.secret_val with
      | none => false
      | some v => decide (0 < v.length)

lemma withCause_ok (c : String) (e : Except ExtractionError String) (v : String)
    (h : withCause c e = Except.ok v) : e = Except.ok v := by
  cases e with
  | ok w => simpa [withCause] using h
  | error err => simp [withCause] at h

lemma extract_ok_valid (rs : List StrategyResult) (v : String)
    (h : extract rs = Except.ok v) : secretValValid v = true := by
  induction rs with
  | nil => simp [extract] at h
  | cons r rest ih =>
      cases r with
      | none => exact ih (withCause_ok _ _ _ h)
      | some w =>
          simp only [extract] at h
          split at h
          · next hw =>
              cases h
              exact hw
          · exact ih (withCause_ok _ _ _ h)

lemma extract_all_invalid (rs : List StrategyResult)
    (hall : ∀ v : String, some v ∈ rs → secretValValid v = false) :
    ∃ causes, extract rs = Except.error { exhausted := true, perStrategyCauses := causes } := by
  induction rs with
  | nil => exact ⟨[], rfl⟩
  | cons r rest ih =>
      obtain ⟨cs, hcs⟩ := ih (fun v hv => hall v (List.mem_cons_of_mem _ hv))
      cases r with
      | none => exact ⟨"absent" :: cs, by simp [extract, hcs, withCause]⟩
      | some w =>
          have hw : secretValValid w = false := hall w (List.mem_cons_self _ _)
          exact ⟨"invalid" :: cs, by simp [extract, hw, hcs, withCause]⟩

/-- C3: a secret_val failing the validity predicate is never stored and never
reported usable.  Extraction over only-invalid strategy results yields
`ExtractionError` with `exhausted` set; in particular the result `"short"`
fails the predicate and is rejected; storing through the extractor preserves
soundness of the token slot; and whenever the frontend reports the token as
present (`hasSecretVal` true) for a soundly stored token, that stored value
satisfies the validity predicate. -/
theorem C3_invalid_token_never_stored (rs : List StrategyResult)
    (hall : ∀ v : String, some v ∈ rs → secretValValid v = false)
    (cur tok : Option String) (hcur : validStore cur = true)
    (hre : Bool) (n : Nat) (hstore : validStore tok = true)
    (hrep : hasSecretVal
        (some { has_results := hre, coursesCount := n, secret_val := tok }) = true) :
    (∃ causes,
        extract rs = Except.error { exhausted := true, perStrategyCauses := causes }) ∧
    (∀ rs2 : List StrategyResult, validStore (storeToken cur (extract rs2)) = true) ∧
    secretValValid "short" = false ∧
    extract [some "short"] =
      Except.error { exhausted := true, perStrategyCauses := ["invalid"] } ∧
    ∃ v, tok = some v ∧ secretValValid v = true := by
  refine ⟨extract_all_invalid rs hall, ?_, by decide, rfl, ?_⟩
  · intro rs2
    cases hx : extract rs2 with
    | ok v =>
        simpa [storeToken, validStore] using extract_ok_valid rs2 v hx
    | error e => simpa [storeToken] using hcur
  · cases tok with
    | none => simp [hasSecretVal] at hrep
    | some v => exact ⟨v, rfl, by simpa [validStore] using hstore⟩

/-- Closed instance of `C3_invalid_token_never_stored`: the chain over the
single result `"short"`, an empty current slot and a stored 60-character
token. -/
theorem C3_invalid_token_never_stored_witness :
    (∃ causes,
        extract [some "short"]
          = Except.error { exhausted := true, perStrategyCauses := causes }) ∧
    (∀ rs2 : List StrategyResult, validStore (storeToken none (extract rs2)) = true) ∧
    secretValValid "short" = false ∧
    extract [some "short"] =
      Except.error { exhausted := true, perStrategyCauses := ["invalid"] } ∧
    ∃ v, some "XXXXXXXXXXXXXXXXXXXXXXXXXXXXXXXXXXXXXXXXXXXXXXXXXXXXXXXXXXXX" = some v ∧
      secretValValid v = true :=
  C3_invalid_token_never_stored [some "short"]
    (by
      intro v hv
      simp only [List.mem_singleton, Option.some.injEq] at hv
      subst hv
      decide)
    none (some "XXXXXXXXXXXXXXXXXXXXXXXXXXXXXXXXXXXXXXXXXXXXXXXXXXXXXXXXXXXX")
    rfl true 1 (by decide) (by decide)

/- ========================================================================
   Selector readiness (`MainPanel.handleSearchSuccess` deriving `canSelect`,
   `SelectCourse.handleSingleSelect` guarding the run-once request).
   ======================================================================== -/

/-- The `handleSearchSuccess(data)` handler of `MainPanel`: the derived value assigned to
`canSelect` — `data.has_results && data.secret_val &&
data.secret_val.length > 0`. -/
def computeCanSelect (d : SearchData) : Bool :=
  d.has_results &&
    (match d.secret_val with
     | none => false
     | some v => decide (0 < v.length))

/-- Outcome of one `handleSingleSelect` invocation of the `SelectCourse`
component with respect to the `/api/select` request. -/
inductive SingleSelectStep where
  | notReadyWarning
  | issueRequest
  deriving Repr, DecidableEq

/-- The `handleSingleSelect()` handler of `SelectCourse`: when `canSelect` is false, warn
(请先搜索课程) and return without a request; otherwise POST `/api/select`. -/
def handleSingleSelect (canSelect : Bool) : SingleSelectStep :=
  if canSelect then SingleSelectStep.issueRequest else SingleSelectStep.notReadyWarning

/-- Modelled from the spec: the backend search endpoint (control surface
`search`, PortalClient.search returning `CourseRecord[]`) reports
`has_results` as the record list being non-empty and delivers the stored
token slot of the session as `secret_val`. -/
def searchResponse (records : List String) (tok : Option String) : SearchData :=
  { has_results := !records.isEmpty, coursesCount := records.length, secret_val := tok }

/-- C6: selector readiness is a derived predicate, not stored state: for every
search outcome whose token slot is sound, `canSelect` is true iff
`has_results` holds and `secret_val` is a non-empty (hence valid) token; a
search returning 0 records yields `canSelect` false, and the subsequent
run-once select is rejected without issuing a request. -/
theorem C6_selector_ready_derived (d : SearchData) (tok : Option String)
    (hstore : validStore d.secret_val = true) :
    (computeCanSelect d = true ↔
      d.has_results = true ∧
        ∃ v, d.secret_val = some v ∧ 0 < v.length ∧ secretValValid v = true) ∧
    computeCanSelect (searchResponse [] tok) = false ∧
    handleSingleSelect (computeCanSelect (searchResponse [] tok))
      = SingleSelectStep.notReadyWarning := by
  refine ⟨?_, ?_, ?_⟩
  · cases hsv : d.secret_val with
    | none => simp [computeCanSelect, hsv]
    | some v =>
        rw [hsv] at hstore
        have hv : secretValValid v = true := by simpa [validStore] using hstore
        simp [computeCanSelect, hsv, hv]
  · simp [computeCanSelect, searchResponse]
  · simp [handleSingleSelect, computeCanSelect, searchResponse]

/-- Closed instance of `C6_selector_ready_derived` on a search outcome holding
a 60-character token. -/
theorem C6_selector_ready_derived_witness :
    (computeCanSelect
        { has_results := true, coursesCount := 1,
          secret_val := some "XXXXXXXXXXXXXXXXXXXXXXXXXXXXXXXXXXXXXXXXXXXXXXXXXXXXXXXXXXXX" }
        = true ↔
      ({ has_results := true, coursesCount := 1,
          secret_val := some "XXXXXXXXXXXXXXXXXXXXXXXXXXXXXXXXXXXXXXXXXXXXXXXXXXXXXXXXXXXX" }
          : SearchData).has_results = true ∧
        ∃ v, ({ has_results := true, coursesCount := 1,
                secret_val := some "XXXXXXXXXXXXXXXXXXXXXXXXXXXXXXXXXXXXXXXXXXXXXXXXXXXXXXXXXXXX" }
                : SearchData).secret_val = some v ∧
          0 < v.length ∧ secretValValid v = true) ∧
    computeCanSelect (searchResponse [] none) = false ∧
    handleSingleSelect (computeCanSelect (searchResponse [] none))
      = SingleSelectStep.notReadyWarning :=
  C6_selector_ready_derived
    { has_results := true, coursesCount := 1,
      secret_val := some "XXXXXXXXXXXXXXXXXXXXXXXXXXXXXXXXXXXXXXXXXXXXXXXXXXXXXXXXXXXX" }
    none (by decide)

/- ========================================================================
   Login (`CourseSystemUI.login` in README.md, `LoginPanel.handleLogin`).
   ======================================================================== -/

/-- The parsed `/api/login` envelope: success flag, message, and the session
id and username of the payload. -/
structure LoginResponse where
  success : Bool
  message : String
  session_id : String
  username : String
  deriving Repr, DecidableEq

/-- What one login call yields to the client: a parsed response envelope, or a
thrown error (network failure / interceptor rejection). -/
inductive LoginOutcome where
  | response (r : LoginResponse)
  | thrown (message : String)
  deriving Repr, DecidableEq

/-- Client-side session state touched by the login path: the stored session
id and whether the main panel is shown. -/
structure LoginState where
  sessionId : Option String
  mainPanelShown : Bool
  deriving Repr, DecidableEq

/-- The `CourseSystemUI.login` / `LoginPanel.handleLogin` path: only on
`result.success` is `sessionId` stored, the main panel shown and the
`login-success` event emitted; a failure envelope or a thrown error only logs
and leaves the state unchanged. -/
def login (st : LoginState) (r : LoginOutcome) : LoginState × List String :=
  match r with
  | LoginOutcome.response resp =>
      if resp.success then
        ({ sessionId := some resp.session_id, mainPanelShown := true },
          ["login-success"])
      else (st, [])
  | LoginOutcome.thrown _ => (st, [])

/-- C8: a failed authentication creates no client-side session: whenever the
login outcome is not a success envelope, the session state is unchanged and no
`login-success` event is emitted; and whenever a session id is stored by a
login call, it came from a success envelope (or was already stored). -/
theorem C8_failed_login_no_session (st : LoginState) (r : LoginOutcome)
    (hfail : ∀ resp : LoginResponse,
      r = LoginOutcome.response resp → resp.success = false) :
    (login st r).1 = st ∧
    "login-success" ∉ (login st r).2 ∧
    ∀ st2 r2 sid, (login st2 r2).1.sessionId = some sid →
      st2.sessionId = some sid ∨
        ∃ resp, r2 = LoginOutcome.response resp ∧ resp.success = true ∧
          resp.session_id = sid := by
  refine ⟨?_, ?_, ?_⟩
  · cases r with
    | response resp =>
        have h := hfail resp rfl
        simp [login, h]
    | thrown m => rfl
  · cases r with
    | response resp =>
        have h := hfail resp rfl
        simp [login, h]
    | thrown m => simp [login]
  · intro st2 r2 sid hsid
    cases r2 with
    | response resp =>
        by_cases hsucc : resp.success = true
        · right
          refine ⟨resp, rfl, hsucc, ?_⟩
        
          simp [login, hsucc] at hsid
          exact hsid
        · left
          simp [login, Bool.eq_false_iff.mpr hsucc] at hsid
          exact hsid
    | thrown m =>
        left
        simpa [login] using hsid

/-- Closed instance of `C8_failed_login_no_session` at a failure envelope and
an empty client state. -/
theorem C8_failed_login_no_session_witness :
    (login { sessionId := none, mainPanelShown := false }
        (LoginOutcome.response
          { success := false, message := "认证失败", session_id := "s9", username := "u" })).1
      = { sessionId := none, mainPanelShown := false } ∧
    "login-success" ∉ (login { sessionId := none, mainPanelShown := false }
        (LoginOutcome.response
          { success := false, message := "认证失败", session_id := "s9", username := "u" })).2 ∧
    ∀ st2 r2 sid, (login st2 r2).1.sessionId = some sid →
      st2.sessionId = some sid ∨
        ∃ resp, r2 = LoginOutcome.response resp ∧ resp.success = true ∧
          resp.session_id = sid :=
  C8_failed_login_no_session { sessionId := none, mainPanelShown := false }
    (LoginOutcome.response
      { success := false, message := "认证失败", session_id := "s9", username := "u" })
    (by
      intro resp h
      cases h
      rfl)

/- ========================================================================
   WebSocket reconnection (`websocket.js` utility: `connectWebSocket`,
   `attemptReconnect`, `onclose` guard, `maxReconnectAttempts`).
   ======================================================================== -/

/-- The `maxReconnectAttempts` constant (5) of the WebSocket utility module. -/
def maxReconnectAttempts : Nat := 5

/-- The delay computed by `attemptReconnect` once the attempt counter has been
incremented to `n`: `Math.min(1000 * Math.pow(2, n), 30000)`. -/
def reconnectDelay (n : Nat) : Nat := min (1000 * 2 ^ n) 30000

/-- The `onclose` / `attemptReconnect` chain of the WebSocket utility run over
a sequence of close events with the given codes: a close with code 1000, or an
attempt counter at the maximum, schedules nothing further; otherwise the
counter is incremented and a reconnect with the computed backoff delay is
scheduled, whose connection produces the next close event.  Returns the
delays of the scheduled reconnection attempts, in order. -/
def reconnectTrace : Nat → List Nat → List Nat
  | _, [] => []
  | attempts, c :: rest =>
      if c ≠ 1000 ∧ attempts < maxReconnectAttempts then
        reconnectDelay (attempts + 1) :: reconnectTrace (attempts + 1) rest
      else []

/-- View of a close event taken by the `onclose` guard: abnormal iff its code is not
the normal-closure code 1000. -/
def abnormal (c : Nat) : Bool := decide (c ≠ 1000)

lemma reconnectTrace_eq (codes : List Nat) :
    ∀ a, reconnectTrace a codes =
      (List.range' (a + 1)
        (min ((codes.takeWhile abnormal).length)
          (maxReconnectAttempts - a))).map reconnectDelay := by
  induction codes with
  | nil => intro a; simp [reconnectTrace]
  | cons c rest ih =>
      intro a
      by_cases hc : c = 1000
      · have hac : abnormal c = false := by simp [abnormal, hc]
        simp [reconnectTrace, hc, List.takeWhile_cons, hac, abnormal]
      · have hac : abnormal c = true := by simp [abnormal, hc]
        have htw : ((c :: rest).takeWhile abnormal).length
            = (rest.takeWhile abnormal).length + 1 := by
          simp [List.takeWhile_cons, hac]
        rw [htw]
        by_cases ha : a < maxReconnectAttempts
        · have hmin : min ((rest.takeWhile abnormal).length + 1)
              (maxReconnectAttempts - a)
              = (min ((rest.takeWhile abnormal).length)
                  (maxReconnectAttempts - (a + 1))) + 1 := by
            omega
          rw [hmin, List.range'_succ, List.map_cons, ← ih (a + 1)]
          simp [reconnectTrace, hc, ha]
        · have hmin : min ((rest.takeWhile abnormal).length + 1)
              (maxReconnectAttempts - a) = 0 := by
            omega
          rw [hmin]
          simp [reconnectTrace, hc, ha]

/-- C9: WebSocket reconnection is bounded and terminates: a run of abnormal
closes schedules the reconnection attempts with delays
`min(1000·2^n, 30000)` for `n = a+1, a+2, …`, at most 5 attempts are ever
scheduled from a fresh counter, every delay is at most 30 seconds, nothing is
scheduled once the counter is at the maximum, and a normal close
(code 1000) schedules nothing. -/
theorem C9_reconnect_bounded_terminates (codes : List Nat) (a : Nat) :
    reconnectTrace a codes =
      (List.range' (a + 1)
        (min ((codes.takeWhile abnormal).length)
          (maxReconnectAttempts - a))).map reconnectDelay ∧
    (reconnectTrace 0 codes).length ≤ 5 ∧
    (∀ d ∈ reconnectTrace a codes, d ≤ 30000) ∧
    (∀ n, reconnectDelay n = min (1000 * 2 ^ n) 30000) ∧
    reconnectTrace maxReconnectAttempts codes = [] ∧
    (∀ rest, reconnectTrace a (1000 :: rest) = []) := by
  refine ⟨reconnectTrace_eq codes a, ?_, ?_, fun n => rfl, ?_, ?_⟩
  · rw [reconnectTrace_eq codes 0]
    simp only [List.length_map, List.length_range', maxReconnectAttempts]
    omega
  · intro d hd
    rw [reconnectTrace_eq codes a] at hd
    obtain ⟨n, _, rfl⟩ := List.mem_map.mp hd
    exact min_le_right _ _
  · rw [reconnectTrace_eq codes maxReconnectAttempts]
    simp
  · intro rest
    simp [reconnectTrace]

/-- Closed instance of `C9_reconnect_bounded_terminates` over seven abnormal
closes: exactly five attempts are scheduled, with the capped exponential
delays. -/
theorem C9_reconnect_bounded_terminates_witness :
    reconnectTrace 0 [1006, 1006, 1006, 1006, 1006, 1006, 1006] =
      (List.range' 1
        (min (([1006, 1006, 1006, 1006, 1006, 1006, 1006].takeWhile abnormal).length)
          (maxReconnectAttempts - 0))).map reconnectDelay ∧
    (reconnectTrace 0 [1006, 1006, 1006, 1006, 1006, 1006, 1006]).length ≤ 5 ∧
    (∀ d ∈ reconnectTrace 0 [1006, 1006, 1006, 1006, 1006, 1006, 1006], d ≤ 30000) ∧
    (∀ n, reconnectDelay n = min (1000 * 2 ^ n) 30000) ∧
    reconnectTrace maxReconnectAttempts [1006, 1006, 1006, 1006, 1006, 1006, 1006] = [] ∧
    (∀ rest, reconnectTrace 0 (1000 :: rest) = []) :=
  C9_reconnect_bounded_terminates [1006, 1006, 1006, 1006, 1006, 1006, 1006] 0

/- ========================================================================
   Shared axios instance (`api.js`): response interceptors.
   ======================================================================== -/

/-- JavaScript `a || b` on strings: the empty string is falsy. -/
def jsOr (a b : String) : String := if a.isEmpty then b else a

/-- Failure shapes distinguished by the response interceptor: a server
response (`error.response` present: status plus the `detail` and `message`
fields of the body, where `""` models an absent-or-empty, falsy field), a
request that received no response (`error.request` present), or a setup error
carrying only the message of the error itself. -/
inductive AxiosFailure where
  | response (status : Nat) (detail : String) (message : String)
  | requestOnly
  | setup (message : String)
  deriving Repr, DecidableEq

/-- The `errorMessage` computed by the rejection branch of the response
interceptor: the status switch for a server response (default case
`error.response.data?.detail || error.response.data?.message || "请求失败"`),
the network case for a response-less request, and
`error.message || "未知错误"` otherwise. -/
def interceptorErrorMessage : AxiosFailure → String
  | AxiosFailure.response status detail message =>
      if status = 401 then "认证失败，请重新登录"
      else if status = 403 then "权限不足"
      else if status = 404 then "API接口不存在"
      else if status = 500 then "服务器内部错误"
      else jsOr detail (jsOr message "请求失败")
  | AxiosFailure.requestOnly => "网络连接失败，请检查网络状态"
  | AxiosFailure.setup message => jsOr message "未知错误"

/-- The value the interceptor rejects with: always `new Error(errorMessage)`,
never the raw axios error object. -/
structure NormalizedError where
  message : String
  deriving Repr, DecidableEq

/-- Rejection branch of `api.interceptors.response.use`. -/
def interceptorReject (f : AxiosFailure) : NormalizedError :=
  { message := interceptorErrorMessage f }

/-- A transport envelope as axios delivers it to the fulfilled branch. -/
structure AxiosResponse (α : Type) where
  status : Nat
  data : α

/-- Fulfilled branch of `api.interceptors.response.use`:
`(response) => response.data`. -/
def interceptorFulfilled {α : Type} (r : AxiosResponse α) : α := r.data

/-- C10: the shared axios instance normalizes every outcome: a success
resolves to `response.data` (the envelope is never exposed), and every
failure rejects with an Error whose message is fully determined by the
failure shape — 401/403/404/500 map to their fixed texts, any other response
status maps to the server-provided detail, else its message, else
`请求失败`, and a request with no response maps to the network-failure text;
a setup failure maps to its own message. -/
theorem C10_interceptor_normalizes {α : Type} (r : AxiosResponse α)
    (s : Nat) (detail msg m2 : String)
    (hs : s ≠ 401 ∧ s ≠ 403 ∧ s ≠ 404 ∧ s ≠ 500) :
    interceptorFulfilled r = r.data ∧
    interceptorReject (AxiosFailure.response 401 detail msg)
      = { message := "认证失败，请重新登录" } ∧
    interceptorReject (AxiosFailure.response 403 detail msg)
      = { message := "权限不足" } ∧
    interceptorReject (AxiosFailure.response 404 detail msg)
      = { message := "API接口不存在" } ∧
    interceptorReject (AxiosFailure.response 500 detail msg)
      = { message := "服务器内部错误" } ∧
    (detail ≠ "" →
      interceptorReject (AxiosFailure.response s detail msg) = { message := detail }) ∧
    (detail = "" → msg ≠ "" →
      interceptorReject (AxiosFailure.response s detail msg) = { message := msg }) ∧
    (detail = "" → msg = "" →
      interceptorReject (AxiosFailure.response s detail msg) = { message := "请求失败" }) ∧
    interceptorReject AxiosFailure.requestOnly
      = { message := "网络连接失败，请检查网络状态" } ∧
    (m2 ≠ "" → interceptorReject (AxiosFailure.setup m2) = { message := m2 }) ∧
    interceptorReject (AxiosFailure.setup "") = { message := "未知错误" } := by
  obtain ⟨h1, h2, h3, h4⟩ := hs
  refine ⟨rfl, rfl, rfl, rfl, rfl, ?_, ?_, ?_, rfl, ?_, rfl⟩
  · intro hd
    simp [interceptorReject, interceptorErrorMessage, h1, h2, h3, h4, jsOr,
      String.isEmpty_iff, hd]
  · intro hd hm
    simp [interceptorReject, interceptorErrorMessage, h1, h2, h3, h4, jsOr,
      String.isEmpty_iff, hd, hm]
  · intro hd hm
    simp [interceptorReject, interceptorErrorMessage, h1, h2, h3, h4, jsOr,
      String.isEmpty_iff, hd, hm]
  · intro hm
    simp [interceptorReject, interceptorErrorMessage, jsOr, String.isEmpty_iff, hm]

/-- Closed instance of `C10_interceptor_normalizes` at status 418 with a
server-provided detail. -/
theorem C10_interceptor_normalizes_witness :
    interceptorFulfilled { status := 200, data := (7 : Nat) } = 7 ∧
    interceptorReject (AxiosFailure.response 401 "d" "m")
      = { message := "认证失败，请重新登录" } ∧
    interceptorReject (AxiosFailure.response 403 "d" "m")
      = { message := "权限不足" } ∧
    interceptorReject (AxiosFailure.response 404 "d" "m")
      = { message := "API接口不存在" } ∧
    interceptorReject (AxiosFailure.response 500 "d" "m")
      = { message := "服务器内部错误" } ∧
    ("d" ≠ "" →
      interceptorReject (AxiosFailure.response 418 "d" "m") = { message := "d" }) ∧
    ("d" = "" → "m" ≠ "" →
      interceptorReject (AxiosFailure.response 418 "d" "m") = { message := "m" }) ∧
    ("d" = "" → "m" = "" →
      interceptorReject (AxiosFailure.response 418 "d" "m") = { message := "请求失败" }) ∧
    interceptorReject AxiosFailure.requestOnly
      = { message := "网络连接失败，请检查网络状态" } ∧
    ("boom" ≠ "" → interceptorReject (AxiosFailure.setup "boom") = { message := "boom" }) ∧
    interceptorReject (AxiosFailure.setup "") = { message := "未知错误" } :=
  C10_interceptor_normalizes { status := 200, data := (7 : Nat) } 418 "d" "m" "boom"
    (by decide)

/- ========================================================================
   Reconnection subscriptions (`connectWebSocket` / `attemptReconnect`): what
   the resubscription request carries.
   ======================================================================== -/

/-- A subscription request to the push channel, in the terms of the Event Bus
contract: the session id and an optional resume-from sequence number. -/
structure WsSubscription where
  sessionId : String
  lastSeq : Option Nat
  deriving Repr, DecidableEq

/-- The `connectWebSocket(sessionId)` function: the connection URL is
`ws(s)://host/ws/sessionId`, built from the session id alone; as a
subscription request it carries no sequence-number parameter. -/
def connectWebSocket (sessionId : String) : WsSubscription :=
  { sessionId := sessionId, lastSeq := none }

/-- The URL string `connectWebSocket` builds. -/
def wsUrl (secure : Bool) (host sessionId : String) : String :=
  (if secure then "wss:" else "ws:") ++ "//" ++ host ++ "/ws/" ++ sessionId

/-- The `attemptReconnect(sessionId)` function: gives up at the attempt cap, otherwise
schedules `connectWebSocket(sessionId)` — the resubscription is built from
the session id alone, whatever events were seen before the disconnect. -/
def attemptReconnect (sessionId : String) (reconnectAttempts : Nat) :
    Option WsSubscription :=
  if reconnectAttempts ≥ maxReconnectAttempts then none
  else some (connectWebSocket sessionId)

/-- Counterexample to C7 as stated: the reconnection scheduled for session
`"s1"` at attempt count 0 carries no last-seen sequence number — its
`lastSeq` is `none`, in particular not `some 7` for an observer that had seen
event 7. -/
theorem C7_counterexample :
    attemptReconnect "s1" 0 = some { sessionId := "s1", lastSeq := none } ∧
    (connectWebSocket "s1").lastSeq ≠ some 7 :=
  ⟨rfl, by simp [connectWebSocket]⟩

/-- C7 (amended): on every reconnection below the attempt cap the client
resubscribes with the session id alone; the subscription carries no last-seen
sequence number, so the gap-free replay offered by the resume contract is not
requested by this client. -/
theorem C7_reconnect_uses_session_id_only (sid : String) (attempts : Nat)
    (h : attempts < maxReconnectAttempts) :
    attemptReconnect sid attempts = some { sessionId := sid, lastSeq := none } ∧
    ∀ n : Nat, (connectWebSocket sid).lastSeq ≠ some n := by
  constructor
  · simp [attemptReconnect, connectWebSocket, Nat.not_le.mpr h]
  · intro n
    simp [connectWebSocket]

/-- Closed instance of `C7_reconnect_uses_session_id_only` at session `"s1"`,
attempt count 0. -/
theorem C7_reconnect_uses_session_id_only_witness :
    attemptReconnect "s1" 0 = some { sessionId := "s1", lastSeq := none } ∧
    ∀ n : Nat, (connectWebSocket "s1").lastSeq ≠ some n :=
  C7_reconnect_uses_session_id_only "s1" 0 (by decide)
